import Mathlib

/-
  Shallow embedding of the reliability core of the
  github-copilot-metrics-mcp-server repository: the validators, the error
  classifier, the retry policy (src/error-handling.ts, with the superseding
  revision of validateUsername) and the service facade (src/github-service.ts).
  JS exceptions are modelled with Except, thrown values with the inductive
  JSError, and the asynchronous upstream client with an oracle mapping the
  attempt number to the outcome of that attempt.  Timestamps are integers,
  in milliseconds.
-/

namespace CopilotMCP

/-- Character class [a-zA-Z0-9] of the validation regexes (ASCII). -/
def isAlnum (c : Char) : Bool := c.isAlpha || c.isDigit

/-- Character class [a-zA-Z0-9-] of the validation regexes. -/
def isAlnumDash (c : Char) : Bool := isAlnum c || c == '-'

/-- Matcher for the optional group ([a-zA-Z0-9-]*[a-zA-Z0-9]) that forms the
tail of the standard GitHub handle regex: every character but the last is in
[a-zA-Z0-9-] and the last one is in [a-zA-Z0-9].  The empty tail matches. -/
def tailMatch : List Char → Bool
  | [] => true
  | [c] => isAlnum c
  | c :: cs => isAlnumDash c && tailMatch cs

/-- Matcher for the standard handle regex of error-handling.ts,
tested against organization names and usernames. -/
def stdMatch : List Char → Bool
  | [] => false
  | [c] => isAlnum c
  | c :: cs => isAlnum c && tailMatch cs

/-- Matcher for the IdP username regex of the superseding validateUsername
revision: a standard base handle, one literal underscore, then a nonempty
alphanumeric short name.  The base cannot contain an underscore, so a match
splits the string at its first underscore. -/
def idpMatch (cs : List Char) : Bool :=
  match cs.dropWhile (fun c => c != '_') with
  | '_' :: tn =>
    stdMatch (cs.takeWhile (fun c => c != '_')) && !tn.isEmpty && tn.all isAlnum
  | _ => false

/-- Declarative reading of the standard pattern, following the words of the
specification: nonempty, every character alphanumeric or hyphen, and the
string neither starts nor ends with a hyphen. -/
def StdLang (cs : List Char) : Prop :=
  (∀ c ∈ cs, isAlnumDash c = true) ∧
    (∃ a, cs.head? = some a ∧ isAlnum a = true) ∧
    (∃ z, cs.getLast? = some z ∧ isAlnum z = true)

/-- Declarative reading of the IdP pattern, following the words of the
specification: a standard base handle, a literal underscore separator, and a
nonempty alphanumeric short-name tail. -/
def IdpLang (cs : List Char) : Prop :=
  ∃ b t, cs = b ++ '_' :: t ∧ StdLang b ∧ t ≠ [] ∧ ∀ c ∈ t, isAlnum c = true

theorem isAlnum_isAlnumDash {c : Char} (h : isAlnum c = true) :
    isAlnumDash c = true := by
  simp [isAlnumDash, h]

theorem tailMatch_iff (cs : List Char) (hne : cs ≠ []) :
    tailMatch cs = true ↔
      ((∀ c ∈ cs, isAlnumDash c = true) ∧
        (∃ z, cs.getLast? = some z ∧ isAlnum z = true)) := by
  induction cs with
  | nil => exact absurd rfl hne
  | cons c cs ih =>
    cases cs with
    | nil =>
      constructor
      · intro h
        refine ⟨?_, c, rfl, h⟩
        intro d hd
        rcases List.mem_singleton.mp hd with rfl
        exact isAlnum_isAlnumDash h
      · rintro ⟨-, z, hz, hzal⟩
        cases Option.some.inj hz
        exact hzal
    | cons d ds =>
      have h2 : d :: ds ≠ [] := by simp
      have hlast : (c :: d :: ds).getLast? = (d :: ds).getLast? :=
        List.getLast?_cons_cons ..
      have hstep : tailMatch (c :: d :: ds) = (isAlnumDash c && tailMatch (d :: ds)) := rfl
      rw [hstep, Bool.and_eq_true, ih h2, hlast]
      constructor
      · rintro ⟨hc, hall, hz⟩
        refine ⟨?_, hz⟩
        intro x hx
        rcases List.mem_cons.mp hx with rfl | hx
        · exact hc
        · exact hall x hx
      · rintro ⟨hall, hz⟩
        exact ⟨hall c (List.mem_cons_self ..),
          fun x hx => hall x (List.mem_cons_of_mem _ hx), hz⟩

theorem stdMatch_iff (cs : List Char) : stdMatch cs = true ↔ StdLang cs := by
  cases cs with
  | nil =>
    simp [stdMatch, StdLang]
  | cons c cs =>
    cases cs with
    | nil =>
      constructor
      · intro h
        refine ⟨?_, ⟨c, rfl, h⟩, ⟨c, rfl, h⟩⟩
        intro d hd
        rcases List.mem_singleton.mp hd with rfl
        exact isAlnum_isAlnumDash h
      · rintro ⟨-, ⟨a, ha, haal⟩, -⟩
        cases Option.some.inj ha
        exact haal
    | cons d ds =>
      have h2 : d :: ds ≠ [] := by simp
      have hstep : stdMatch (c :: d :: ds) = (isAlnum c && tailMatch (d :: ds)) := rfl
      have hlast : (c :: d :: ds).getLast? = (d :: ds).getLast? :=
        List.getLast?_cons_cons ..
      rw [hstep, Bool.and_eq_true, tailMatch_iff _ h2]
      constructor
      · rintro ⟨hc, hall, hz⟩
        refine ⟨?_, ⟨c, rfl, hc⟩, ?_⟩
        · intro x hx
          rcases List.mem_cons.mp hx with rfl | hx
          · exact isAlnum_isAlnumDash hc
          · exact hall x hx
        · rw [hlast]
          exact hz
      · rintro ⟨hall, ⟨a, ha, haal⟩, hz⟩
        cases Option.some.inj ha
        rw [hlast] at hz
        exact ⟨haal, fun x hx => hall x (List.mem_cons_of_mem _ hx), hz⟩

theorem isAlnumDash_ne_underscore {c : Char} (h : isAlnumDash c = true) :
    (c != '_') = true := by
  rcases eq_or_ne c '_' with rfl | hne
  · exact absurd h (by decide)
  · simpa using hne

theorem isAlnum_ne_underscore {c : Char} (h : isAlnum c = true) :
    c ≠ '_' := by
  rintro rfl
  exact absurd h (by decide)

theorem takeWhile_sat_append {p : Char → Bool} (b : List Char) (x : Char)
    (t : List Char) (hb : ∀ c ∈ b, p c = true) (hx : p x = false) :
    (b ++ x :: t).takeWhile p = b := by
  induction b with
  | nil => simp [List.takeWhile, hx]
  | cons c cs ih =>
    have hc : p c = true := hb c (List.mem_cons_self ..)
    have hcs : ∀ c ∈ cs, p c = true := fun d hd => hb d (List.mem_cons_of_mem _ hd)
    simp [List.takeWhile, hc, ih hcs]

theorem dropWhile_sat_append {p : Char → Bool} (b : List Char) (x : Char)
    (t : List Char) (hb : ∀ c ∈ b, p c = true) (hx : p x = false) :
    (b ++ x :: t).dropWhile p = x :: t := by
  induction b with
  | nil => simp [List.dropWhile, hx]
  | cons c cs ih =>
    have hc : p c = true := hb c (List.mem_cons_self ..)
    have hcs : ∀ c ∈ cs, p c = true := fun d hd => hb d (List.mem_cons_of_mem _ hd)
    simp [List.dropWhile, hc, ih hcs]

theorem idpMatch_iff (cs : List Char) : idpMatch cs = true ↔ IdpLang cs := by
  constructor
  · intro h
    unfold idpMatch at h
    split at h
    case _ tn heq =>
      rw [Bool.and_eq_true, Bool.and_eq_true] at h
      obtain ⟨⟨hbase, hne⟩, hall⟩ := h
      refine ⟨cs.takeWhile (fun c => c != '_'), tn, ?_, (stdMatch_iff _).mp hbase, ?_, ?_⟩
      · rw [← heq]
        exact (List.takeWhile_append_dropWhile ..).symm
      · intro habs
        rw [habs] at hne
        exact absurd hne (by decide)
      · intro c hc
        exact List.all_eq_true.mp hall c hc
    case _ => exact absurd h (by decide)
  · rintro ⟨b, t, rfl, hb, htne, htal⟩
    have hbok : ∀ c ∈ b, (c != '_') = true := by
      intro c hc
      exact isAlnumDash_ne_underscore (hb.1 c hc)
    have hxf : (('_' : Char) != '_') = false := by decide
    unfold idpMatch
    rw [dropWhile_sat_append b '_' t hbok hxf]
    rw [takeWhile_sat_append b '_' t hbok hxf]
    have h1 : stdMatch b = true := (stdMatch_iff b).mpr hb
    have h2 : t.isEmpty = false := by
      cases t with
      | nil => exact absurd rfl htne
      | cons x xs => rfl
    have h3 : t.all isAlnum = true := List.all_eq_true.mpr htal
    simp [h1, h2, h3]

instance (cs : List Char) : Decidable (StdLang cs) :=
  decidable_of_iff _ (stdMatch_iff cs)

instance (cs : List Char) : Decidable (IdpLang cs) :=
  decidable_of_iff _ (idpMatch_iff cs)

/-- Shape of the response attached to an upstream (octokit) failure, as read
by handleAPIError through the optional accesses response?.data and
response?.headers?.[...].  The opaque payload data is modelled as an optional
string. -/
structure APIResponseJS where
  data : Option String
  headers : Option (List (String × String))
deriving Repr, DecidableEq

/-- Duck-typed view of a raw upstream failure, the APIError interface of
error-handling.ts: every field optional. -/
structure APIErrorJS where
  message : Option String
  response : Option APIResponseJS
  status : Option Int
deriving Repr, DecidableEq

/-- Thrown values of the embedded program.  gitHubAPIError, rateLimitError and
validationError are the three Error subclasses declared in error-handling.ts;
genericError is a plain JS Error (carrying only a message); upstream is a raw
failure of the octokit client, which is an Error instance but none of the
three declared subclasses.  The Date stored in rateLimitError is modelled by
its timestamp in milliseconds, none standing for an invalid date. -/
inductive JSError where
  | gitHubAPIError (message : String) (statusCode : Option Int) (respData : Option String)
  | rateLimitError (message : String) (resetTimeMs : Option Int) (retryAfter : Option Int)
  | validationError (message : String) (field : String)
  | genericError (message : String)
  | upstream (err : APIErrorJS)
deriving Repr, DecidableEq

instance {ε α : Type} [DecidableEq ε] [DecidableEq α] :
    DecidableEq (Except ε α) := fun x y =>
  match x, y with
  | .ok a, .ok b =>
    if h : a = b then .isTrue (congrArg Except.ok h)
    else .isFalse (fun hc => h (Except.ok.inj hc))
  | .ok _, .error _ => .isFalse (fun hc => Except.noConfusion hc)
  | .error _, .ok _ => .isFalse (fun hc => Except.noConfusion hc)
  | .error e, .error f =>
    if h : e = f then .isTrue (congrArg Except.error h)
    else .isFalse (fun hc => h (Except.error.inj hc))

/-- validateOrganizationName from error-handling.ts.  The falsy check
covers the empty string; the non-string case is excluded by typing. -/
def validateOrganizationName (org : String) : Except JSError Unit :=
  if org = "" then
    .error (.validationError "Organization name is required and must be a string" "org")
  else if org.length < 1 || org.length > 39 then
    .error (.validationError "Organization name must be between 1 and 39 characters" "org")
  else if !stdMatch org.data then
    .error (.validationError "Organization name contains invalid characters" "org")
  else
    .ok ()

/-- validateUsername in its superseding revision: the string passes if it
matches the standard handle regex or the IdP regex with an underscore-joined
short name. -/
def validateUsername (username : String) : Except JSError Unit :=
  if username = "" then
    .error (.validationError "Username is required and must be a string" "username")
  else if username.length < 1 || username.length > 39 then
    .error (.validationError "Username must be between 1 and 39 characters" "username")
  else if !stdMatch username.data && !idpMatch username.data then
    .error (.validationError
      "Username contains invalid characters or does not follow allowed patterns (standard or IdP with _shortname)"
      "username")
  else
    .ok ()

/-- Numeric value of a list of decimal digit characters. -/
def digitsVal (cs : List Char) : Nat :=
  cs.foldl (fun a c => a * 10 + (c.toNat - 48)) 0

/-- Gregorian leap year rule. -/
def isLeapYear (y : Nat) : Bool :=
  (y % 4 == 0 && y % 100 != 0) || y % 400 == 0

/-- Length of a month in the proleptic Gregorian calendar. -/
def daysInMonth (y m : Nat) : Nat :=
  if m == 2 then (if isLeapYear y then 29 else 28)
  else if m == 4 || m == 6 || m == 9 || m == 11 then 30
  else 31

/-- Validity of a year-month-day triple as a real calendar date. -/
def validDateYMD (y m d : Nat) : Bool :=
  1 ≤ m && m ≤ 12 && 1 ≤ d && d ≤ daysInMonth y m

/-- validateDateString from error-handling.ts.  Modelled from the spec for
the Date collaborator: parsing a YYYY-MM-DD string with the ECMAScript Date
constructor yields an invalid date exactly when the triple is not a real
calendar date (so new Date(date).getTime() is NaN exactly then). -/
def validateDateString (date : String) (fieldName : String) : Except JSError Unit :=
  match date.data with
  | [y1, y2, y3, y4, '-', m1, m2, '-', d1, d2] =>
    if y1.isDigit && y2.isDigit && y3.isDigit && y4.isDigit &&
        m1.isDigit && m2.isDigit && d1.isDigit && d2.isDigit then
      if validDateYMD (digitsVal [y1, y2, y3, y4]) (digitsVal [m1, m2]) (digitsVal [d1, d2]) then
        .ok ()
      else
        .error (.validationError (fieldName ++ " is not a valid date") fieldName)
    else
      .error (.validationError (fieldName ++ " must be in YYYY-MM-DD format") fieldName)
  | _ => .error (.validationError (fieldName ++ " must be in YYYY-MM-DD format") fieldName)

/-- validatePaginationParams from error-handling.ts. -/
def validatePaginationParams (page per_page : Int) : Except JSError Unit :=
  if page < 1 then
    .error (.validationError "Page must be greater than 0" "page")
  else if per_page < 1 || per_page > 100 then
    .error (.validationError "per_page must be between 1 and 100" "per_page")
  else
    .ok ()

/-- Value of a nonempty digit run, none for the empty list (where the JS
parseInt returns NaN). -/
def digitRunVal : List Char → Option Nat
  | [] => none
  | cs => some (digitsVal cs)

/-- The JS parseInt builtin with radix 10, on inputs made of an optional sign
followed by arbitrary characters: the longest leading digit run is parsed,
and none is returned where parseInt returns NaN. -/
def parseIntJS (s : String) : Option Int :=
  match s.data with
  | '-' :: rest => (digitRunVal (rest.takeWhile Char.isDigit)).map (fun n => -(n : Int))
  | '+' :: rest => (digitRunVal (rest.takeWhile Char.isDigit)).map (fun n => (n : Int))
  | cs => (digitRunVal (cs.takeWhile Char.isDigit)).map (fun n => (n : Int))

/-- Math.ceil of the rational a / b for a positive integer b, as used for the
retryAfter computation of the classifier. -/
def ceilDivJS (a b : Int) : Int := -(Int.ediv (-a) b)

/-- Field access error.response?.data. -/
def respData (e : APIErrorJS) : Option String :=
  e.response.bind APIResponseJS.data

/-- Field access error.response?.headers?.[k]. -/
def respHeader (e : APIErrorJS) (k : String) : Option String :=
  e.response.bind (fun r => r.headers.bind (fun hs => hs.lookup k))

/-- JS truthiness of an optional string: undefined and the empty string are
falsy. -/
def strTruthy : Option String → Bool
  | none => false
  | some s => s != ""

/-- The JS expression m || d for an optional string m: d when m is undefined
or empty. -/
def jsOrDefault (m : Option String) (d : String) : String :=
  match m with
  | some s => if s = "" then d else s
  | none => d

/-- handleAPIError from error-handling.ts.  The source function always throws;
it is modelled as returning the thrown value.  now is Date.now() in
milliseconds at classification time.  In the 500 branch the source guards with
the truthiness of status, which is implied by 500 <= status. -/
def handleAPIError (e : APIErrorJS) (now : Int) : JSError :=
  if e.status == some 401 then
    .gitHubAPIError "Authentication failed. Please check your GitHub token or app credentials."
      (some 401) (respData e)
  else if e.status == some 403 then
    match respHeader e "x-ratelimit-reset" with
    | some v =>
      if v != "" then
        let resetMs := (parseIntJS v).map (fun n => n * 1000)
        .rateLimitError "GitHub API rate limit exceeded. Please try again later."
          resetMs (resetMs.map (fun ms => ceilDivJS (ms - now) 1000))
      else
        .gitHubAPIError "Access forbidden. Check your permissions for this operation."
          (some 403) (respData e)
    | none =>
      .gitHubAPIError "Access forbidden. Check your permissions for this operation."
        (some 403) (respData e)
  else if e.status == some 404 then
    .gitHubAPIError "Resource not found. Please check the organization/user name."
      (some 404) (respData e)
  else if (match e.status with | some s => decide (500 ≤ s) | none => false) then
    .gitHubAPIError "GitHub API server error. Please try again later."
      e.status (respData e)
  else
    .gitHubAPIError (jsOrDefault e.message "Unknown GitHub API error")
      e.status (respData e)

/-- The do-not-retry test of retryOperation: a ValidationError instance, or a
GitHubAPIError instance whose statusCode || 0 is 401 or 404.  Raw upstream
errors and plain errors are instances of neither class, so they fall through
to the retry path. -/
def nonRetryable : JSError → Bool
  | .validationError _ _ => true
  | .gitHubAPIError _ statusCode _ => statusCode.getD 0 == 401 || statusCode.getD 0 == 404
  | _ => false

/-- Observable outcome of one run of the retry loop: the returned or thrown
value, how many times the wrapped operation was invoked, and the list of
backoff sleeps performed, in order and in milliseconds. -/
structure RetryOutcome (α : Type) where
  result : Except JSError α
  calls : Nat
  sleeps : List Nat
deriving Repr

/-- Loop of retryOperation from error-handling.ts, attempt going from 1 to
maxRetries.  remaining is maxRetries - attempt + 1, the number of attempts
still allowed including the current one, so the source test
attempt === maxRetries is remaining = 1 here; the recursion is structural on
remaining.  On remaining = 0 the loop body never runs and the current
lastError, which is then still the initial placeholder, is thrown. -/
def retryLoop {α : Type} (op : Nat → Except JSError α) (backoffMs : Nat) :
    Nat → Nat → RetryOutcome α
  | 0, _ => ⟨.error (.genericError "Unknown error"), 0, []⟩
  | remaining + 1, attempt =>
    match op attempt with
    | .ok v => ⟨.ok v, 1, []⟩
    | .error e =>
      if remaining = 0 then
        ⟨.error e, 1, []⟩
      else if nonRetryable e then
        ⟨.error e, 1, []⟩
      else
        let delay := backoffMs * 2 ^ (attempt - 1)
        let rest := retryLoop op backoffMs remaining (attempt + 1)
        ⟨rest.result, rest.calls + 1, delay :: rest.sleeps⟩

/-- retryOperation from error-handling.ts.  The operation closure is modelled
as an oracle giving the outcome of each attempt, by its 1-based number.  A
non-positive maxRetries makes the loop exit at once with the placeholder
error. -/
def retryOperation {α : Type} (op : Nat → Except JSError α) (maxRetries : Int)
    (backoffMs : Nat) : RetryOutcome α :=
  retryLoop op backoffMs maxRetries.toNat 1

/-- Observable outcome of one service facade call: the value returned or the
error thrown to the caller, the number of invocations of the upstream octokit
client, and the backoff sleeps performed. -/
structure SvcOutcome (α : Type) where
  result : Except JSError α
  upstreamCalls : Nat
  sleeps : List Nat

/-- Duck-typed field view that handleAPIError reads off a caught value in the
catch blocks of github-service.ts.  A raw upstream failure exposes its own
fields.  The declared Error subclasses have a message but no status field
(GitHubAPIError stores its code under statusCode, which handleAPIError does
not read), and their response field does not carry a data/headers record. -/
def apiView : JSError → APIErrorJS
  | .upstream a => a
  | .gitHubAPIError m _ _ => ⟨some m, none, none⟩
  | .rateLimitError m _ _ => ⟨some m, none, none⟩
  | .validationError m _ => ⟨some m, none, none⟩
  | .genericError m => ⟨some m, none, none⟩

/-- The catch(error => handleAPIError(error, op)) step of the facade. -/
def classifyCaught (e : JSError) (now : Int) : JSError :=
  handleAPIError (apiView e) now

/-- Lift of the upstream oracle into the thrown-value type: a rejected octokit
promise throws the raw upstream error. -/
def liftUpstream {α : Type} (oracle : Nat → Except APIErrorJS α) :
    Nat → Except JSError α :=
  fun i => (oracle i).mapError .upstream

/-- Common tail of every facade operation: retryOperation with maxRetries 3
and backoffMs 1000 around the upstream call, then classification of whatever
the retry policy ultimately throws. -/
def runRetryClassify {α : Type} (oracle : Nat → Except APIErrorJS α)
    (now : Int) : SvcOutcome α :=
  let r := retryOperation (liftUpstream oracle) 3 1000
  match r.result with
  | .ok v => ⟨.ok v, r.calls, r.sleeps⟩
  | .error e => ⟨.error (classifyCaught e now), r.calls, r.sleeps⟩

/-- The guarded if (since) validateDateString(since, "since") statements of
the usage operations: an absent or empty (falsy) value skips validation. -/
def validateOptionalDate (v : Option String) (fieldName : String) :
    Except JSError Unit :=
  match v with
  | some s => if s != "" then validateDateString s fieldName else .ok ()
  | none => .ok ()

/-- The selected_usernames.forEach(username => validateUsername(username))
statement: validate in order, the first failure aborts. -/
def validateUsernameList : List String → Except JSError Unit
  | [] => .ok ()
  | u :: us =>
    match validateUsername u with
    | .error e => .error e
    | .ok _ => validateUsernameList us

/-- getCopilotUsageForOrg from github-service.ts.  since and untl model the
optional since/until arguments; the upstream octokit call is the oracle. -/
def getCopilotUsageForOrg {α : Type} (org : String) (since untl : Option String)
    (page per_page : Int) (oracle : Nat → Except APIErrorJS α) (now : Int) :
    SvcOutcome α :=
  match validateOrganizationName org with
  | .error e => ⟨.error e, 0, []⟩
  | .ok _ =>
    match validatePaginationParams page per_page with
    | .error e => ⟨.error e, 0, []⟩
    | .ok _ =>
      match validateOptionalDate since "since" with
      | .error e => ⟨.error e, 0, []⟩
      | .ok _ =>
        match validateOptionalDate untl "until" with
        | .error e => ⟨.error e, 0, []⟩
        | .ok _ => runRetryClassify oracle now

/-- getCopilotUsageForEnterprise from github-service.ts: organization name
validation rules applied to the enterprise slug, then the same pipeline. -/
def getCopilotUsageForEnterprise {α : Type} (enterprise : String)
    (since untl : Option String) (page per_page : Int)
    (oracle : Nat → Except APIErrorJS α) (now : Int) : SvcOutcome α :=
  match validateOrganizationName enterprise with
  | .error e => ⟨.error e, 0, []⟩
  | .ok _ =>
    match validatePaginationParams page per_page with
    | .error e => ⟨.error e, 0, []⟩
    | .ok _ =>
      match validateOptionalDate since "since" with
      | .error e => ⟨.error e, 0, []⟩
      | .ok _ =>
        match validateOptionalDate untl "until" with
        | .error e => ⟨.error e, 0, []⟩
        | .ok _ => runRetryClassify oracle now

/-- getCopilotSeatsForOrg from github-service.ts. -/
def getCopilotSeatsForOrg {α : Type} (org : String) (page per_page : Int)
    (oracle : Nat → Except APIErrorJS α) (now : Int) : SvcOutcome α :=
  match validateOrganizationName org with
  | .error e => ⟨.error e, 0, []⟩
  | .ok _ =>
    match validatePaginationParams page per_page with
    | .error e => ⟨.error e, 0, []⟩
    | .ok _ => runRetryClassify oracle now

/-- addCopilotSeatsForUsers from github-service.ts.  The selected_usernames
argument is an optional list: none models a non-array value.  A non-array or
empty list throws a plain Error before any upstream call; that throw happens
outside the retryOperation(...).catch(...) chain, so it is not classified. -/
def addCopilotSeatsForUsers {α : Type} (org : String)
    (selected_usernames : Option (List String))
    (oracle : Nat → Except APIErrorJS α) (now : Int) : SvcOutcome α :=
  match validateOrganizationName org with
  | .error e => ⟨.error e, 0, []⟩
  | .ok _ =>
    match selected_usernames with
    | none => ⟨.error (.genericError "selected_usernames must be a non-empty array"), 0, []⟩
    | some l =>
      if l.isEmpty then
        ⟨.error (.genericError "selected_usernames must be a non-empty array"), 0, []⟩
      else
        match validateUsernameList l with
        | .error e => ⟨.error e, 0, []⟩
        | .ok _ => runRetryClassify oracle now

/-- removeCopilotSeatsForUsers from github-service.ts: identical admission
checks, the upstream call cancels the seat assignments. -/
def removeCopilotSeatsForUsers {α : Type} (org : String)
    (selected_usernames : Option (List String))
    (oracle : Nat → Except APIErrorJS α) (now : Int) : SvcOutcome α :=
  match validateOrganizationName org with
  | .error e => ⟨.error e, 0, []⟩
  | .ok _ =>
    match selected_usernames with
    | none => ⟨.error (.genericError "selected_usernames must be a non-empty array"), 0, []⟩
    | some l =>
      if l.isEmpty then
        ⟨.error (.genericError "selected_usernames must be a non-empty array"), 0, []⟩
      else
        match validateUsernameList l with
        | .error e => ⟨.error e, 0, []⟩
        | .ok _ => runRetryClassify oracle now

/-- getCopilotSeatDetails from github-service.ts. -/
def getCopilotSeatDetails {α : Type} (org username : String)
    (oracle : Nat → Except APIErrorJS α) (now : Int) : SvcOutcome α :=
  match validateOrganizationName org with
  | .error e => ⟨.error e, 0, []⟩
  | .ok _ =>
    match validateUsername username with
    | .error e => ⟨.error e, 0, []⟩
    | .ok _ => runRetryClassify oracle now

/-- Typed errors of the error taxonomy: the three Error subclasses declared in
error-handling.ts (ValidationFailure and the classified kinds).  Plain errors
and raw upstream failures are untyped. -/
def isTypedError : JSError → Bool
  | .validationError _ _ => true
  | .gitHubAPIError _ _ _ => true
  | .rateLimitError _ _ _ => true
  | .genericError _ => false
  | .upstream _ => false

theorem retryLoop_ok {α : Type} (op : Nat → Except JSError α)
    (b remaining attempt : Nat) (v : α) (h : op attempt = .ok v) :
    retryLoop op b (remaining + 1) attempt = ⟨.ok v, 1, []⟩ := by
  unfold retryLoop
  rw [h]

theorem retryLoop_break {α : Type} (op : Nat → Except JSError α)
    (b attempt : Nat) (e : JSError) (h : op attempt = .error e) :
    retryLoop op b 1 attempt = ⟨.error e, 1, []⟩ := by
  show retryLoop op b (0 + 1) attempt = ⟨.error e, 1, []⟩
  simp [retryLoop, h]

theorem retryLoop_nonretryable {α : Type} (op : Nat → Except JSError α)
    (b remaining attempt : Nat) (e : JSError) (h : op attempt = .error e)
    (hnr : nonRetryable e = true) :
    retryLoop op b (remaining + 1) attempt = ⟨.error e, 1, []⟩ := by
  by_cases hrem : remaining = 0 <;> simp [retryLoop, h, hnr, hrem]

theorem retryLoop_retry {α : Type} (op : Nat → Except JSError α)
    (b remaining attempt : Nat) (e : JSError) (h : op attempt = .error e)
    (hrem : remaining ≠ 0) (hnr : nonRetryable e = false) :
    retryLoop op b (remaining + 1) attempt =
      ⟨(retryLoop op b remaining (attempt + 1)).result,
       (retryLoop op b remaining (attempt + 1)).calls + 1,
       b * 2 ^ (attempt - 1) :: (retryLoop op b remaining (attempt + 1)).sleeps⟩ := by
  simp [retryLoop, h, hrem, hnr]

/-- Claim C10: with a non-positive maxRetries budget the loop of
retryOperation never runs, so the wrapped operation is never invoked and the
placeholder error with message Unknown error is thrown, unclassified. -/
theorem retryOperation_nonpositive_budget {α : Type}
    (op : Nat → Except JSError α) (maxRetries : Int) (backoffMs : Nat)
    (h : maxRetries ≤ 0) :
    retryOperation op maxRetries backoffMs =
      ⟨.error (.genericError "Unknown error"), 0, []⟩ := by
  unfold retryOperation
  have h0 : maxRetries.toNat = 0 := by omega
  rw [h0]
  rfl

/-- Witness for C10 at maxRetries = -2. -/
theorem retryOperation_nonpositive_budget_witness :
    retryOperation (fun _ => (.ok 0 : Except JSError Nat)) (-2) 5 =
      ⟨.error (.genericError "Unknown error"), 0, []⟩ :=
  retryOperation_nonpositive_budget (fun _ => .ok 0) (-2) 5 (by decide)

/-- Claim C4: when the first attempt throws a ValidationFailure or a
classified Unauthorized (401) or NotFound (404) error and the budget allows
at least two attempts, retryOperation re-raises that same error after exactly
one invocation and with no backoff sleep. -/
theorem retryOperation_first_attempt_nonretryable {α : Type}
    (op : Nat → Except JSError α) (maxRetries : Int) (backoffMs : Nat)
    (e : JSError) (hmax : 2 ≤ maxRetries) (h1 : op 1 = .error e)
    (hkind : (∃ m f, e = .validationError m f) ∨
      (∃ m d, e = .gitHubAPIError m (some 401) d) ∨
      (∃ m d, e = .gitHubAPIError m (some 404) d)) :
    retryOperation op maxRetries backoffMs = ⟨.error e, 1, []⟩ := by
  have hnr : nonRetryable e = true := by
    rcases hkind with ⟨m, f, rfl⟩ | ⟨m, d, rfl⟩ | ⟨m, d, rfl⟩ <;> simp [nonRetryable]
  have hr : maxRetries.toNat = (maxRetries.toNat - 1) + 1 := by omega
  unfold retryOperation
  rw [hr]
  exact retryLoop_nonretryable op backoffMs _ 1 e h1 hnr

/-- Witness for C4: a NotFound-classified failure on attempt 1 with budget 3
is raised after a single invocation. -/
theorem retryOperation_first_attempt_nonretryable_witness :
    retryOperation
      (fun _ => (.error (.gitHubAPIError
        "Resource not found. Please check the organization/user name."
        (some 404) none) : Except JSError Nat)) 3 1000 =
      ⟨.error (.gitHubAPIError
        "Resource not found. Please check the organization/user name."
        (some 404) none), 1, []⟩ :=
  retryOperation_first_attempt_nonretryable _ 3 1000 _ (by decide) rfl
    (Or.inr (Or.inr ⟨_, _, rfl⟩))

/-- Claim C5: two ServerError-classified failures followed by a success on
attempt 3 make retryOperation with budget 3 and base backoff b return the
success value after exactly three sequential invocations, sleeping b then
2 times b milliseconds in between, a total suspension of at least 3 times b. -/
theorem retryOperation_transient_then_success {α : Type}
    (op : Nat → Except JSError α) (backoffMs : Nat) (v : α)
    (m1 m2 : String) (s1 s2 : Int) (d1 d2 : Option String)
    (h1 : op 1 = .error (.gitHubAPIError m1 (some s1) d1)) (hs1 : 500 ≤ s1)
    (h2 : op 2 = .error (.gitHubAPIError m2 (some s2) d2)) (hs2 : 500 ≤ s2)
    (h3 : op 3 = .ok v) :
    retryOperation op 3 backoffMs =
        ⟨.ok v, 3, [backoffMs, backoffMs * 2]⟩ ∧
      backoffMs + backoffMs * 2 ≥ 3 * backoffMs := by
  have hnr1 : nonRetryable (.gitHubAPIError m1 (some s1) d1) = false := by
    simp only [nonRetryable, Option.getD_some, Bool.or_eq_false_iff, beq_eq_false_iff_ne]
    omega
  have hnr2 : nonRetryable (.gitHubAPIError m2 (some s2) d2) = false := by
    simp only [nonRetryable, Option.getD_some, Bool.or_eq_false_iff, beq_eq_false_iff_ne]
    omega
  refine ⟨?_, by omega⟩
  have step1 := retryLoop_retry op backoffMs 2 1 _ h1 (by decide) hnr1
  have step2 := retryLoop_retry op backoffMs 1 2 _ h2 (by decide) hnr2
  have step3 := retryLoop_ok op backoffMs 0 3 v h3
  norm_num at step1 step2 step3
  unfold retryOperation
  have ht : (3 : Int).toNat = 3 := rfl
  rw [ht, step1, step2, step3]

/-- Witness for C5 at base backoff 100. -/
theorem retryOperation_transient_then_success_witness :
    retryOperation
        (fun i => if i < 3
          then (.error (.gitHubAPIError "GitHub API server error. Please try again later."
            (some 502) none) : Except JSError Nat)
          else .ok 7) 3 100 =
        ⟨.ok 7, 3, [100, 200]⟩ ∧
      (100 : Nat) + 100 * 2 ≥ 3 * 100 :=
  retryOperation_transient_then_success _ 100 7 _ _ 502 502 none none
    rfl (by decide) rfl (by decide) rfl

theorem validateUsername_ok_iff (u : String) :
    validateUsername u = .ok () ↔
      (1 ≤ u.length ∧ u.length ≤ 39 ∧ (StdLang u.data ∨ IdpLang u.data)) := by
  unfold validateUsername
  split_ifs with h1 h2 h3
  · subst h1
    simp
  · constructor
    · intro h
      exact absurd h (by simp)
    · rintro ⟨hl, hr, -⟩
      simp only [Bool.or_eq_true, decide_eq_true_eq] at h2
      exfalso
      omega
  · simp only [Bool.and_eq_true, Bool.not_eq_true'] at h3
    constructor
    · intro h
      exact absurd h (by simp)
    · rintro ⟨-, -, hp | hp⟩
      · exact absurd ((stdMatch_iff _).mpr hp) (by simp [h3.1])
      · exact absurd ((idpMatch_iff _).mpr hp) (by simp [h3.2])
  · simp only [Bool.or_eq_true, decide_eq_true_eq, not_or, not_lt] at h2
    have hp : StdLang u.data ∨ IdpLang u.data := by
      cases hs : stdMatch u.data with
      | true => exact Or.inl ((stdMatch_iff _).mp hs)
      | false =>
        cases hi : idpMatch u.data with
        | true => exact Or.inr ((idpMatch_iff _).mp hi)
        | false => exact absurd (by simp [hs, hi]) h3
    exact iff_of_true rfl ⟨by omega, by omega, hp⟩

theorem validateUsername_error_shape (u : String) :
    validateUsername u = .ok () ∨
      ∃ m, validateUsername u = .error (.validationError m "username") := by
  unfold validateUsername
  split_ifs <;> first
    | exact Or.inl rfl
    | exact Or.inr ⟨_, rfl⟩

/-- Claim C2: validateUsername succeeds exactly on the strings of length 1 to
39 matching the standard handle pattern or the IdP underscore-suffix pattern,
and on every other string raises a ValidationFailure on field username; in
particular username_idp and test-my_idp pass while test_my-user is
rejected. -/
theorem validateUsername_spec (u : String) :
    (validateUsername u = .ok () ↔
      (1 ≤ u.length ∧ u.length ≤ 39 ∧ (StdLang u.data ∨ IdpLang u.data))) ∧
    (¬(1 ≤ u.length ∧ u.length ≤ 39 ∧ (StdLang u.data ∨ IdpLang u.data)) →
      ∃ m, validateUsername u = .error (.validationError m "username")) ∧
    validateUsername "username_idp" = .ok () ∧
    validateUsername "test-my_idp" = .ok () ∧
    (∃ m, validateUsername "test_my-user" = .error (.validationError m "username")) := by
  refine ⟨validateUsername_ok_iff u, ?_, by decide, by decide,
    ⟨"Username contains invalid characters or does not follow allowed patterns (standard or IdP with _shortname)",
      by decide⟩⟩
  intro hbad
  rcases validateUsername_error_shape u with hok | herr
  · exact absurd ((validateUsername_ok_iff u).mp hok) hbad
  · exact herr

/-- Witness for C2: a plain handle passes and a bare trailing underscore is
rejected with a ValidationFailure on field username. -/
theorem validateUsername_spec_witness :
    validateUsername "octocat" = .ok () ∧
    ∃ m, validateUsername "octo_" = .error (.validationError m "username") :=
  ⟨(validateUsername_spec "octocat").1.mpr (by decide),
   (validateUsername_spec "octo_").2.1 (by decide)⟩

theorem parseIntJS_empty : parseIntJS "" = none := rfl

/-- Claim C7: classifying a 403 whose x-ratelimit-reset header parses to the
unix-seconds value r yields RateLimited carrying resetAt = r times 1000
milliseconds and retryAfterSeconds = ceil((resetAt - now) / 1000); when
resetAt is now plus 60000 milliseconds the retry-after is exactly 60. -/
theorem handleAPIError_rate_limit (e : APIErrorJS) (now r : Int) (v : String)
    (hs : e.status = some 403) (hv : respHeader e "x-ratelimit-reset" = some v)
    (hr : parseIntJS v = some r) :
    handleAPIError e now =
        .rateLimitError "GitHub API rate limit exceeded. Please try again later."
          (some (r * 1000)) (some (ceilDivJS (r * 1000 - now) 1000)) ∧
      (r * 1000 - now = 60000 → ceilDivJS (r * 1000 - now) 1000 = 60) := by
  have hvne : (v != "") = true := by
    simp only [bne_iff_ne, ne_eq]
    rintro rfl
    rw [parseIntJS_empty] at hr
    cases hr
  constructor
  · simp [handleAPIError, hs, hv, hvne, hr]
  · intro h
    rw [h]
    decide

/-- Witness for C7: header value 60 at now = 0 classifies to RateLimited with
resetAt 60000 ms and retry-after 60 s. -/
theorem handleAPIError_rate_limit_witness :
    handleAPIError ⟨some "boom", some ⟨none, some [("x-ratelimit-reset", "60")]⟩, some 403⟩ 0 =
        .rateLimitError "GitHub API rate limit exceeded. Please try again later."
          (some (60 * 1000)) (some (ceilDivJS (60 * 1000 - 0) 1000)) ∧
      ceilDivJS (60 * 1000 - 0) 1000 = 60 :=
  ⟨(handleAPIError_rate_limit
      ⟨some "boom", some ⟨none, some [("x-ratelimit-reset", "60")]⟩, some 403⟩
      0 60 "60" rfl (by decide) (by decide)).1,
   (handleAPIError_rate_limit
      ⟨some "boom", some ⟨none, some [("x-ratelimit-reset", "60")]⟩, some 403⟩
      0 60 "60" rfl (by decide) (by decide)).2 (by decide)⟩

/-- Counterexample to claim C6 as stated: on an unmatched status with an
empty original message, the classifier does not pass the message through
verbatim but substitutes the fallback text. -/
theorem handleAPIError_empty_message_counterexample :
    handleAPIError ⟨some "", none, none⟩ 0 =
        .gitHubAPIError "Unknown GitHub API error" none none ∧
      ("Unknown GitHub API error" : String) ≠ "" := by
  exact ⟨by decide, by decide⟩

/-- Claim C6 (amended): handleAPIError always produces a classified error by
first status match: 401 to Unauthorized, 403 with a truthy x-ratelimit-reset
header to RateLimited, 403 without it to Forbidden, 404 to NotFound, at least
500 to ServerError, and any other or missing status to Unknown, whose message
is the original one verbatim when that is present and nonempty, and the
fallback text Unknown GitHub API error otherwise. -/
theorem handleAPIError_decision_table (e : APIErrorJS) (now : Int) :
    (e.status = some 401 → handleAPIError e now =
      .gitHubAPIError "Authentication failed. Please check your GitHub token or app credentials."
        (some 401) (respData e)) ∧
    (e.status = some 403 → strTruthy (respHeader e "x-ratelimit-reset") = true →
      ∃ rm ra, handleAPIError e now =
        .rateLimitError "GitHub API rate limit exceeded. Please try again later." rm ra) ∧
    (e.status = some 403 → strTruthy (respHeader e "x-ratelimit-reset") = false →
      handleAPIError e now =
        .gitHubAPIError "Access forbidden. Check your permissions for this operation."
          (some 403) (respData e)) ∧
    (e.status = some 404 → handleAPIError e now =
      .gitHubAPIError "Resource not found. Please check the organization/user name."
        (some 404) (respData e)) ∧
    (∀ s, e.status = some s → 500 ≤ s → handleAPIError e now =
      .gitHubAPIError "GitHub API server error. Please try again later."
        (some s) (respData e)) ∧
    ((e.status = none ∨ ∃ s, e.status = some s ∧ s ≠ 401 ∧ s ≠ 403 ∧ s ≠ 404 ∧ s < 500) →
      (∀ m, e.message = some m → m ≠ "" →
        handleAPIError e now = .gitHubAPIError m e.status (respData e)) ∧
      ((e.message = none ∨ e.message = some "") →
        handleAPIError e now =
          .gitHubAPIError "Unknown GitHub API error" e.status (respData e))) := by
  refine ⟨?_, ?_, ?_, ?_, ?_, ?_⟩
  · intro h
    simp [handleAPIError, h]
  · intro h ht
    cases hv : respHeader e "x-ratelimit-reset" with
    | none =>
      rw [hv] at ht
      exact absurd ht (by decide)
    | some v =>
      rw [hv] at ht
      refine ⟨(parseIntJS v).map (fun n => n * 1000),
        ((parseIntJS v).map (fun n => n * 1000)).map (fun ms => ceilDivJS (ms - now) 1000), ?_⟩
      simp only [strTruthy] at ht
      simp [handleAPIError, h, hv, ht]
  · intro h ht
    cases hv : respHeader e "x-ratelimit-reset" with
    | none => simp [handleAPIError, h, hv]
    | some v =>
      rw [hv] at ht
      simp only [strTruthy] at ht
      simp [handleAPIError, h, hv, ht]
  · intro h
    simp [handleAPIError, h]
  · intro s h hs
    have hne1 : s ≠ 401 := by omega
    have hne3 : s ≠ 403 := by omega
    have hne4 : s ≠ 404 := by omega
    simp [handleAPIError, h, hne1, hne3, hne4, hs]
  · intro hother
    have hmain : ∀ m0, e.message = m0 → handleAPIError e now =
        .gitHubAPIError (jsOrDefault m0 "Unknown GitHub API error") e.status (respData e) := by
      intro m0 hm0
      rcases hother with hnone | ⟨s, hsome, hne1, hne3, hne4, hlt⟩
      · simp [handleAPIError, hnone, hm0]
      · have hns : ¬(500 ≤ s) := by omega
        simp [handleAPIError, hsome, hne1, hne3, hne4, hns, hm0]
    constructor
    · intro m hm hmne
      have := hmain (some m) hm
      rwa [show jsOrDefault (some m) "Unknown GitHub API error" = m by
        simp [jsOrDefault, hmne]] at this
    · intro hm
      rcases hm with hm | hm
      · have := hmain none hm
        simpa [jsOrDefault] using this
      · have := hmain (some "") hm
        simpa [jsOrDefault] using this

/-- Witness for C6: a 401 classifies to Unauthorized and a 418 with message
boom classifies to Unknown carrying that message verbatim. -/
theorem handleAPIError_decision_table_witness :
    handleAPIError ⟨some "boom", none, some 401⟩ 0 =
        .gitHubAPIError "Authentication failed. Please check your GitHub token or app credentials."
          (some 401) (respData ⟨some "boom", none, some 401⟩) ∧
      handleAPIError ⟨some "boom", none, some 418⟩ 0 =
        .gitHubAPIError "boom" (some 418) (respData ⟨some "boom", none, some 418⟩) :=
  ⟨(handleAPIError_decision_table ⟨some "boom", none, some 401⟩ 0).1 rfl,
   ((handleAPIError_decision_table ⟨some "boom", none, some 418⟩ 0).2.2.2.2.2
      (Or.inr ⟨418, rfl, by decide, by decide, by decide, by decide⟩)).1
      "boom" rfl (by decide)⟩

/-- Counterexample to claim C3 as stated: an operation that fails every
attempt with the Forbidden-classified error (403, no rate-limit header) is
not raised immediately by retryOperation: with budget 3 it is invoked three
times and two backoff sleeps occur. -/
theorem retryOperation_forbidden_counterexample :
    (retryOperation (fun _ => (.error (.gitHubAPIError
          "Access forbidden. Check your permissions for this operation."
          (some 403) none) : Except JSError Unit)) 3 1000).calls ≠ 1 ∧
      (retryOperation (fun _ => (.error (.gitHubAPIError
          "Access forbidden. Check your permissions for this operation."
          (some 403) none) : Except JSError Unit)) 3 1000).sleeps ≠ [] := by
  exact ⟨by decide, by decide⟩

/-- Claim C3 (amended): a Forbidden-classified failure (403) is transient for
the retry policy: the immediate-raise test only matches ValidationFailure and
the classified 401 and 404 errors.  With budget 3 and base backoff b, an
operation failing every attempt with Forbidden is invoked three times with
backoff sleeps b and 2b, and only then is the last Forbidden error raised. -/
theorem retryOperation_forbidden_transient {α : Type}
    (op : Nat → Except JSError α) (b : Nat)
    (m1 m2 m3 : String) (d1 d2 d3 : Option String)
    (h1 : op 1 = .error (.gitHubAPIError m1 (some 403) d1))
    (h2 : op 2 = .error (.gitHubAPIError m2 (some 403) d2))
    (h3 : op 3 = .error (.gitHubAPIError m3 (some 403) d3)) :
    retryOperation op 3 b =
      ⟨.error (.gitHubAPIError m3 (some 403) d3), 3, [b, b * 2]⟩ := by
  have hnr1 : nonRetryable (.gitHubAPIError m1 (some 403) d1) = false := by
    simp [nonRetryable]
  have hnr2 : nonRetryable (.gitHubAPIError m2 (some 403) d2) = false := by
    simp [nonRetryable]
  have step1 := retryLoop_retry op b 2 1 _ h1 (by decide) hnr1
  have step2 := retryLoop_retry op b 1 2 _ h2 (by decide) hnr2
  have step3 := retryLoop_break op b 3 _ h3
  norm_num at step1 step2
  unfold retryOperation
  rw [show (3 : Int).toNat = 3 from rfl, step1, step2, step3]

/-- Witness for C3 (amended) at base backoff 50. -/
theorem retryOperation_forbidden_transient_witness :
    retryOperation (fun _ => (.error (.gitHubAPIError
        "Access forbidden. Check your permissions for this operation."
        (some 403) none) : Except JSError Unit)) 3 50 =
      ⟨.error (.gitHubAPIError
        "Access forbidden. Check your permissions for this operation."
        (some 403) none), 3, [50, 50 * 2]⟩ :=
  retryOperation_forbidden_transient _ 50 _ _ _ none none none rfl rfl rfl

/-- Counterexample to claim C1 as stated: with every upstream invocation
failing with HTTP 401, getCopilotSeatDetails performs the upstream call three
times with backoff sleeps in between, not exactly once with none. -/
theorem getCopilotSeatDetails_401_counterexample :
    (getCopilotSeatDetails "octo-org" "octocat"
        (fun _ => (.error ⟨some "Bad credentials", some ⟨none, some []⟩, some 401⟩ :
          Except APIErrorJS Unit)) 0).upstreamCalls ≠ 1 ∧
      (getCopilotSeatDetails "octo-org" "octocat"
        (fun _ => (.error ⟨some "Bad credentials", some ⟨none, some []⟩, some 401⟩ :
          Except APIErrorJS Unit)) 0).sleeps ≠ [] := by
  exact ⟨by decide, by decide⟩

/-- Claim C1 (amended): for getCopilotSeatDetails on valid inputs, if every
upstream invocation fails with an error of HTTP status 401, the raw upstream
error is not an instance of the classified error types, so the retry policy
treats it as transient: the upstream call is performed exactly three times,
with backoff sleeps of 1000 and 2000 milliseconds, and the error surfaced to
the caller is the classified Unauthorized error. -/
theorem getCopilotSeatDetails_upstream_401 {α : Type} (org username : String)
    (oracle : Nat → Except APIErrorJS α) (now : Int)
    (horg : validateOrganizationName org = .ok ())
    (huser : validateUsername username = .ok ())
    (h401 : ∀ i, ∃ a, oracle i = .error a ∧ a.status = some 401) :
    (getCopilotSeatDetails org username oracle now).upstreamCalls = 3 ∧
      (getCopilotSeatDetails org username oracle now).sleeps = [1000, 2000] ∧
      ∃ d, (getCopilotSeatDetails org username oracle now).result =
        .error (.gitHubAPIError
          "Authentication failed. Please check your GitHub token or app credentials."
          (some 401) d) := by
  obtain ⟨a1, ha1, hs1⟩ := h401 1
  obtain ⟨a2, ha2, hs2⟩ := h401 2
  obtain ⟨a3, ha3, hs3⟩ := h401 3
  have hl1 : liftUpstream oracle 1 = .error (.upstream a1) := by
    simp only [liftUpstream, ha1]
    rfl
  have hl2 : liftUpstream oracle 2 = .error (.upstream a2) := by
    simp only [liftUpstream, ha2]
    rfl
  have hl3 : liftUpstream oracle 3 = .error (.upstream a3) := by
    simp only [liftUpstream, ha3]
    rfl
  have step1 := retryLoop_retry (liftUpstream oracle) 1000 2 1 _ hl1 (by decide) rfl
  have step2 := retryLoop_retry (liftUpstream oracle) 1000 1 2 _ hl2 (by decide) rfl
  have step3 := retryLoop_break (liftUpstream oracle) 1000 3 _ hl3
  norm_num at step1 step2
  have hretry : retryOperation (liftUpstream oracle) 3 1000 =
      ⟨.error (.upstream a3), 3, [1000, 2000]⟩ := by
    unfold retryOperation
    rw [show (3 : Int).toNat = 3 from rfl, step1, step2, step3]
  have hclass : classifyCaught (.upstream a3) now =
      .gitHubAPIError
        "Authentication failed. Please check your GitHub token or app credentials."
        (some 401) (respData a3) := by
    simp [classifyCaught, apiView, handleAPIError, hs3]
  unfold getCopilotSeatDetails
  rw [horg, huser]
  simp [runRetryClassify, hretry, hclass]

/-- Witness for C1 (amended) on a constantly failing 401 upstream. -/
theorem getCopilotSeatDetails_upstream_401_witness :
    (getCopilotSeatDetails "octo-org" "octocat"
        (fun _ => (.error ⟨some "Bad credentials", some ⟨none, some []⟩, some 401⟩ :
          Except APIErrorJS Unit)) 0).upstreamCalls = 3 ∧
      (getCopilotSeatDetails "octo-org" "octocat"
        (fun _ => (.error ⟨some "Bad credentials", some ⟨none, some []⟩, some 401⟩ :
          Except APIErrorJS Unit)) 0).sleeps = [1000, 2000] ∧
      ∃ d, (getCopilotSeatDetails "octo-org" "octocat"
        (fun _ => (.error ⟨some "Bad credentials", some ⟨none, some []⟩, some 401⟩ :
          Except APIErrorJS Unit)) 0).result =
        .error (.gitHubAPIError
          "Authentication failed. Please check your GitHub token or app credentials."
          (some 401) d) :=
  getCopilotSeatDetails_upstream_401 "octo-org" "octocat" _ 0
    (by decide) (by decide) (fun i => ⟨_, rfl, rfl⟩)

theorem validateUsernameList_error_of_bad (l : List String) (u : String)
    (hu : u ∈ l) (hbad : validateUsername u ≠ .ok ()) :
    ∃ e, validateUsernameList l = .error e := by
  induction l with
  | nil => cases hu
  | cons x xs ih =>
    unfold validateUsernameList
    cases hx : validateUsername x with
    | error e => exact ⟨e, rfl⟩
    | ok v =>
      rcases List.mem_cons.mp hu with rfl | hu2
      · cases v
        exact absurd hx hbad
      · simpa using ih hu2

/-- Claim C8: the bulk seat operations perform an all-or-nothing admission
check: a non-array, empty, or anywhere-invalid username list makes both
addCopilotSeatsForUsers and removeCopilotSeatsForUsers raise with zero
invocations of the upstream client. -/
theorem bulk_seat_ops_all_or_nothing {α : Type} (org : String)
    (lst : Option (List String)) (oracle : Nat → Except APIErrorJS α) (now : Int)
    (hbad : lst = none ∨ lst = some [] ∨
      ∃ l u, lst = some l ∧ u ∈ l ∧ validateUsername u ≠ .ok ()) :
    ((addCopilotSeatsForUsers org lst oracle now).upstreamCalls = 0 ∧
      ∃ e, (addCopilotSeatsForUsers org lst oracle now).result = .error e) ∧
    ((removeCopilotSeatsForUsers org lst oracle now).upstreamCalls = 0 ∧
      ∃ e, (removeCopilotSeatsForUsers org lst oracle now).result = .error e) := by
  have hlist : ∀ l, lst = some l → l ≠ [] →
      ∃ e, validateUsernameList l = .error e := by
    intro l hl hne
    rcases hbad with h | h | ⟨l2, u, hl2, hu, hubad⟩
    · rw [h] at hl
      cases hl
    · rw [h] at hl
      cases Option.some.inj hl
      exact absurd rfl hne
    · rw [hl2] at hl
      cases Option.some.inj hl
      exact validateUsernameList_error_of_bad _ u hu hubad
  constructor
  · cases horg : validateOrganizationName org with
    | error e0 => exact ⟨by simp [addCopilotSeatsForUsers, horg],
        e0, by simp [addCopilotSeatsForUsers, horg]⟩
    | ok v0 =>
      cases v0
      cases lst with
      | none => exact ⟨by simp [addCopilotSeatsForUsers, horg],
          .genericError "selected_usernames must be a non-empty array",
          by simp [addCopilotSeatsForUsers, horg]⟩
      | some l =>
        cases l with
        | nil => exact ⟨by simp [addCopilotSeatsForUsers, horg],
            .genericError "selected_usernames must be a non-empty array",
            by simp [addCopilotSeatsForUsers, horg]⟩
        | cons x xs =>
          obtain ⟨e1, he1⟩ := hlist (x :: xs) rfl (by simp)
          exact ⟨by simp [addCopilotSeatsForUsers, horg, he1],
            e1, by simp [addCopilotSeatsForUsers, horg, he1]⟩
  · cases horg : validateOrganizationName org with
    | error e0 => exact ⟨by simp [removeCopilotSeatsForUsers, horg],
        e0, by simp [removeCopilotSeatsForUsers, horg]⟩
    | ok v0 =>
      cases v0
      cases lst with
      | none => exact ⟨by simp [removeCopilotSeatsForUsers, horg],
          .genericError "selected_usernames must be a non-empty array",
          by simp [removeCopilotSeatsForUsers, horg]⟩
      | some l =>
        cases l with
        | nil => exact ⟨by simp [removeCopilotSeatsForUsers, horg],
            .genericError "selected_usernames must be a non-empty array",
            by simp [removeCopilotSeatsForUsers, horg]⟩
        | cons x xs =>
          obtain ⟨e1, he1⟩ := hlist (x :: xs) rfl (by simp)
          exact ⟨by simp [removeCopilotSeatsForUsers, horg, he1],
            e1, by simp [removeCopilotSeatsForUsers, horg, he1]⟩

/-- Witness for C8: one malformed username aborts both bulk operations before
any upstream call. -/
theorem bulk_seat_ops_all_or_nothing_witness :
    ((addCopilotSeatsForUsers "octo-org" (some ["ok-user", "bad_user_bad"])
        (fun _ => (.ok () : Except APIErrorJS Unit)) 0).upstreamCalls = 0 ∧
      ∃ e, (addCopilotSeatsForUsers "octo-org" (some ["ok-user", "bad_user_bad"])
        (fun _ => (.ok () : Except APIErrorJS Unit)) 0).result = .error e) ∧
    ((removeCopilotSeatsForUsers "octo-org" (some ["ok-user", "bad_user_bad"])
        (fun _ => (.ok () : Except APIErrorJS Unit)) 0).upstreamCalls = 0 ∧
      ∃ e, (removeCopilotSeatsForUsers "octo-org" (some ["ok-user", "bad_user_bad"])
        (fun _ => (.ok () : Except APIErrorJS Unit)) 0).result = .error e) :=
  bulk_seat_ops_all_or_nothing "octo-org" _ _ 0
    (Or.inr (Or.inr ⟨_, "bad_user_bad", rfl, by decide, by decide⟩))

theorem typed_of_validation (x : Except JSError Unit)
    (hx : x = .ok () ∨ ∃ m f, x = .error (.validationError m f))
    (e : JSError) (h : x = .error e) : isTypedError e = true := by
  rcases hx with hok | ⟨m, f, herr⟩
  · rw [hok] at h
    exact Except.noConfusion h
  · rw [herr] at h
    have h2 := Except.error.inj h
    rw [← h2]
    rfl

theorem validateOrganizationName_shape (org : String) :
    validateOrganizationName org = .ok () ∨
      ∃ m f, validateOrganizationName org = .error (.validationError m f) := by
  unfold validateOrganizationName
  split_ifs <;> first | exact Or.inl rfl | exact Or.inr ⟨_, _, rfl⟩

theorem validateUsername_shape (u : String) :
    validateUsername u = .ok () ∨
      ∃ m f, validateUsername u = .error (.validationError m f) := by
  unfold validateUsername
  split_ifs <;> first | exact Or.inl rfl | exact Or.inr ⟨_, _, rfl⟩

theorem validatePaginationParams_shape (page per_page : Int) :
    validatePaginationParams page per_page = .ok () ∨
      ∃ m f, validatePaginationParams page per_page = .error (.validationError m f) := by
  unfold validatePaginationParams
  split_ifs <;> first | exact Or.inl rfl | exact Or.inr ⟨_, _, rfl⟩

theorem validateDateString_shape (d fn : String) :
    validateDateString d fn = .ok () ∨
      ∃ m f, validateDateString d fn = .error (.validationError m f) := by
  unfold validateDateString
  split
  · split_ifs <;> first | exact Or.inl rfl | exact Or.inr ⟨_, _, rfl⟩
  · exact Or.inr ⟨_, _, rfl⟩

theorem validateOptionalDate_shape (v : Option String) (fn : String) :
    validateOptionalDate v fn = .ok () ∨
      ∃ m f, validateOptionalDate v fn = .error (.validationError m f) := by
  unfold validateOptionalDate
  split
  · split_ifs
    · exact validateDateString_shape _ _
    · exact Or.inl rfl
  · exact Or.inl rfl

theorem validateUsernameList_shape (l : List String) :
    validateUsernameList l = .ok () ∨
      ∃ m f, validateUsernameList l = .error (.validationError m f) := by
  induction l with
  | nil => exact Or.inl rfl
  | cons x xs ih =>
    unfold validateUsernameList
    cases hx : validateUsername x with
    | error e2 =>
      rcases validateUsername_shape x with hok | ⟨m, f, herr⟩
      · rw [hok] at hx
        exact Except.noConfusion hx
      · rw [herr] at hx
        have h2 := Except.error.inj hx
        exact Or.inr ⟨m, f, by rw [← h2]⟩
    | ok v => exact ih

theorem handleAPIError_typed (a : APIErrorJS) (now : Int) :
    isTypedError (handleAPIError a now) = true := by
  unfold handleAPIError
  repeat' split
  all_goals rfl

theorem runRetryClassify_error_typed {α : Type}
    (oracle : Nat → Except APIErrorJS α) (now : Int) (e : JSError)
    (h : (runRetryClassify oracle now).result = .error e) :
    isTypedError e = true := by
  simp only [runRetryClassify] at h
  split at h
  · exact Except.noConfusion h
  · have h2 := Except.error.inj h
    rw [← h2]
    exact handleAPIError_typed _ _

/-- Counterexample to claim C9 as stated: a bulk operation invoked with an
empty username list propagates the plain admission Error, which is neither a
ValidationFailure nor a classified error, to the caller. -/
theorem addSeats_untyped_error_counterexample :
    (addCopilotSeatsForUsers "octo-org" (some ([] : List String))
        (fun _ => (.ok () : Except APIErrorJS Unit)) 0).result =
      .error (.genericError "selected_usernames must be a non-empty array") ∧
    isTypedError (.genericError "selected_usernames must be a non-empty array") = false := by
  exact ⟨by decide, by decide⟩

/-- Claim C9 (amended): every error a facade operation propagates is a
ValidationFailure or a classified error, with one exception: the bulk seat
operations given a non-array or empty username list raise the plain admission
Error with message selected_usernames must be a non-empty array, which is
untyped. -/
theorem facade_errors_typed {α : Type} :
    (∀ (org : String) (since untl : Option String) (page per_page : Int)
      (oracle : Nat → Except APIErrorJS α) (now : Int) (e : JSError),
      (getCopilotUsageForOrg org since untl page per_page oracle now).result = .error e →
      isTypedError e = true) ∧
    (∀ (enterprise : String) (since untl : Option String) (page per_page : Int)
      (oracle : Nat → Except APIErrorJS α) (now : Int) (e : JSError),
      (getCopilotUsageForEnterprise enterprise since untl page per_page oracle now).result = .error e →
      isTypedError e = true) ∧
    (∀ (org : String) (page per_page : Int)
      (oracle : Nat → Except APIErrorJS α) (now : Int) (e : JSError),
      (getCopilotSeatsForOrg org page per_page oracle now).result = .error e →
      isTypedError e = true) ∧
    (∀ (org username : String)
      (oracle : Nat → Except APIErrorJS α) (now : Int) (e : JSError),
      (getCopilotSeatDetails org username oracle now).result = .error e →
      isTypedError e = true) ∧
    (∀ (org : String) (lst : Option (List String))
      (oracle : Nat → Except APIErrorJS α) (now : Int) (e : JSError),
      (addCopilotSeatsForUsers org lst oracle now).result = .error e →
      isTypedError e = true ∨
        e = .genericError "selected_usernames must be a non-empty array") ∧
    (∀ (org : String) (lst : Option (List String))
      (oracle : Nat → Except APIErrorJS α) (now : Int) (e : JSError),
      (removeCopilotSeatsForUsers org lst oracle now).result = .error e →
      isTypedError e = true ∨
        e = .genericError "selected_usernames must be a non-empty array") := by
  refine ⟨?_, ?_, ?_, ?_, ?_, ?_⟩
  · intro org since untl page per_page oracle now e h
    unfold getCopilotUsageForOrg at h
    split at h
    case _ e0 heq =>
      have h2 : (Except.error e0 : Except JSError α) = Except.error e := h
      rw [Except.error.inj h2] at heq
      exact typed_of_validation _ (validateOrganizationName_shape org) e heq
    case _ =>
      split at h
      case _ e0 heq =>
        have h2 : (Except.error e0 : Except JSError α) = Except.error e := h
        rw [Except.error.inj h2] at heq
        exact typed_of_validation _ (validatePaginationParams_shape page per_page) e heq
      case _ =>
        split at h
        case _ e0 heq =>
          have h2 : (Except.error e0 : Except JSError α) = Except.error e := h
          rw [Except.error.inj h2] at heq
          exact typed_of_validation _ (validateOptionalDate_shape since "since") e heq
        case _ =>
          split at h
          case _ e0 heq =>
            have h2 : (Except.error e0 : Except JSError α) = Except.error e := h
            rw [Except.error.inj h2] at heq
            exact typed_of_validation _ (validateOptionalDate_shape untl "until") e heq
          case _ => exact runRetryClassify_error_typed _ _ _ h
  · intro enterprise since untl page per_page oracle now e h
    unfold getCopilotUsageForEnterprise at h
    split at h
    case _ e0 heq =>
      have h2 : (Except.error e0 : Except JSError α) = Except.error e := h
      rw [Except.error.inj h2] at heq
      exact typed_of_validation _ (validateOrganizationName_shape enterprise) e heq
    case _ =>
      split at h
      case _ e0 heq =>
        have h2 : (Except.error e0 : Except JSError α) = Except.error e := h
        rw [Except.error.inj h2] at heq
        exact typed_of_validation _ (validatePaginationParams_shape page per_page) e heq
      case _ =>
        split at h
        case _ e0 heq =>
          have h2 : (Except.error e0 : Except JSError α) = Except.error e := h
          rw [Except.error.inj h2] at heq
          exact typed_of_validation _ (validateOptionalDate_shape since "since") e heq
        case _ =>
          split at h
          case _ e0 heq =>
            have h2 : (Except.error e0 : Except JSError α) = Except.error e := h
            rw [Except.error.inj h2] at heq
            exact typed_of_validation _ (validateOptionalDate_shape untl "until") e heq
          case _ => exact runRetryClassify_error_typed _ _ _ h
  · intro org page per_page oracle now e h
    unfold getCopilotSeatsForOrg at h
    split at h
    case _ e0 heq =>
      have h2 : (Except.error e0 : Except JSError α) = Except.error e := h
      rw [Except.error.inj h2] at heq
      exact typed_of_validation _ (validateOrganizationName_shape org) e heq
    case _ =>
      split at h
      case _ e0 heq =>
        have h2 : (Except.error e0 : Except JSError α) = Except.error e := h
        rw [Except.error.inj h2] at heq
        exact typed_of_validation _ (validatePaginationParams_shape page per_page) e heq
      case _ => exact runRetryClassify_error_typed _ _ _ h
  · intro org username oracle now e h
    unfold getCopilotSeatDetails at h
    split at h
    case _ e0 heq =>
      have h2 : (Except.error e0 : Except JSError α) = Except.error e := h
      rw [Except.error.inj h2] at heq
      exact typed_of_validation _ (validateOrganizationName_shape org) e heq
    case _ =>
      split at h
      case _ e0 heq =>
        have h2 : (Except.error e0 : Except JSError α) = Except.error e := h
        rw [Except.error.inj h2] at heq
        exact typed_of_validation _ (validateUsername_shape username) e heq
      case _ => exact runRetryClassify_error_typed _ _ _ h
  · intro org lst oracle now e h
    unfold addCopilotSeatsForUsers at h
    split at h
    case _ e0 heq =>
      have h2 : (Except.error e0 : Except JSError α) = Except.error e := h
      rw [Except.error.inj h2] at heq
      exact Or.inl (typed_of_validation _ (validateOrganizationName_shape org) e heq)
    case _ =>
      split at h
      case _ =>
        have h2 : Except.error (JSError.genericError
            "selected_usernames must be a non-empty array") = Except.error e := h
        exact Or.inr (Except.error.inj h2).symm
      case _ l =>
        split_ifs at h
        · have h2 : Except.error (JSError.genericError
              "selected_usernames must be a non-empty array") = Except.error e := h
          exact Or.inr (Except.error.inj h2).symm
        · split at h
          case _ e0 heq =>
            have h2 : (Except.error e0 : Except JSError α) = Except.error e := h
            rw [Except.error.inj h2] at heq
            exact Or.inl (typed_of_validation _ (validateUsernameList_shape l) e heq)
          case _ => exact Or.inl (runRetryClassify_error_typed _ _ _ h)
  · intro org lst oracle now e h
    unfold removeCopilotSeatsForUsers at h
    split at h
    case _ e0 heq =>
      have h2 : (Except.error e0 : Except JSError α) = Except.error e := h
      rw [Except.error.inj h2] at heq
      exact Or.inl (typed_of_validation _ (validateOrganizationName_shape org) e heq)
    case _ =>
      split at h
      case _ =>
        have h2 : Except.error (JSError.genericError
            "selected_usernames must be a non-empty array") = Except.error e := h
        exact Or.inr (Except.error.inj h2).symm
      case _ l =>
        split_ifs at h
        · have h2 : Except.error (JSError.genericError
              "selected_usernames must be a non-empty array") = Except.error e := h
          exact Or.inr (Except.error.inj h2).symm
        · split at h
          case _ e0 heq =>
            have h2 : (Except.error e0 : Except JSError α) = Except.error e := h
            rw [Except.error.inj h2] at heq
            exact Or.inl (typed_of_validation _ (validateUsernameList_shape l) e heq)
          case _ => exact Or.inl (runRetryClassify_error_typed _ _ _ h)

/-- Witness for C9 (amended): a seat-details call with an invalid
organization name propagates a typed error, and an empty bulk list propagates
exactly the admission Error. -/
theorem facade_errors_typed_witness :
    isTypedError (.validationError
      "Organization name is required and must be a string" "org") = true ∧
    (isTypedError (.genericError "selected_usernames must be a non-empty array") = true ∨
      (.genericError "selected_usernames must be a non-empty array" : JSError) =
        .genericError "selected_usernames must be a non-empty array") :=
  ⟨(facade_errors_typed (α := Unit)).2.2.2.1 "" "octocat" (fun _ => .ok ()) 0
      (.validationError "Organization name is required and must be a string" "org")
      (by decide),
   (facade_errors_typed (α := Unit)).2.2.2.2.1 "octo-org" (some [])
      (fun _ => .ok ()) 0
      (.genericError "selected_usernames must be a non-empty array")
      (by decide)⟩

end CopilotMCP
